import Mathlib

/-!
Verification of the import cost estimation engine of the vehicle-import
brokerage site (src/src/components/ImportCalculator.tsx).

The estimator is a pure function: it maps a vehicle declaration (declared
value, engine-size band selector, age band selector, origin selector) and the
rate data in effect (KRA duty/VAT rates, shipping-rate table) to either an
itemized cost breakdown or `none` (the "NotReady" state of the spec).

Modelling choices:
- JavaScript numbers are modelled as exact rationals (ℚ); the spec states
  nothing is rounded internally, and every constant in the source is an exact
  decimal.
- The `carValue` text input run through `parseFloat` is modelled as
  `Option ℚ`: `none` stands for an empty or non-numeric string (`parseFloat`
  returns NaN, which is falsy), `some v` for a string parsing to `v`.
- The JavaScript truthiness guard `if (!value || !engineSize || !age)` becomes
  `value = 0 ∨ engineSize = "" ∨ age = ""` (on the `some` branch; the NaN case
  is the `none` branch).
- The shipping table `shippingRates` is an association list `List (String × ℚ)`
  and `shippingRates[origin] || 150000` becomes a lookup whose result falls
  back to 150000 when the key is absent or the stored rate is zero (the falsy
  values of a JS number that exist in ℚ).
-/

/-- The KRA rate data (interface `KRAData` of the source, minus the
`lastUpdated` timestamp, which the computation never reads). -/
structure KRAData where
  importDutyRate : ℚ
  exciseDutyRate : ℚ
  vatRate : ℚ
deriving DecidableEq, Repr

/-- One entry of `engineSizeOptions`: the selector string, the display label
and the value multiplier. -/
structure EngineOption where
  value : String
  label : String
  multiplier : ℚ
deriving DecidableEq, Repr

/-- One entry of `ageOptions`: the selector string, the display label and the
depreciation factor. -/
structure AgeOption where
  value : String
  label : String
  depreciationFactor : ℚ
deriving DecidableEq, Repr

/-- Engine size options with CC ranges, exactly as listed in the source. -/
def engineSizeOptions : List EngineOption :=
  [ ⟨"1000", "Below 1000cc", 1.0⟩,
    ⟨"1500", "1001-1500cc", 1.1⟩,
    ⟨"2000", "1501-2000cc", 1.2⟩,
    ⟨"2500", "2001-2500cc", 1.3⟩,
    ⟨"3000", "2501-3000cc", 1.4⟩,
    ⟨"3500", "3001-4000cc", 1.5⟩,
    ⟨"4000", "Above 4000cc", 1.6⟩ ]

/-- Car age options with depreciation factors, exactly as listed in the
source. -/
def ageOptions : List AgeOption :=
  [ ⟨"1", "Less than 1 year", 1.0⟩,
    ⟨"2", "1-2 years", 0.95⟩,
    ⟨"3", "2-3 years", 0.90⟩,
    ⟨"5", "3-5 years", 0.85⟩,
    ⟨"8", "5-8 years", 0.80⟩,
    ⟨"10", "8+ years", 0.75⟩ ]

/-- The itemized cost breakdown returned by `calculateCosts`, field for field
the object literal of the source. -/
structure CostBreakdown where
  originalValue : ℚ
  adjustedValue : ℚ
  importDuty : ℚ
  exciseDuty : ℚ
  vat : ℚ
  shippingCost : ℚ
  clearingFees : ℚ
  inspectionFees : ℚ
  documentationFees : ℚ
  kraFees : ℚ
  ntsa_fees : ℚ
  portHandling : ℚ
  ourServiceFee : ℚ
  totalCost : ℚ
  engineMultiplier : ℚ
  depreciationFactor : ℚ
deriving DecidableEq, Repr

/-- Lookup of `shippingRates[origin]` in the association-list model of the
shipping table. -/
def lookupRate (shippingRates : List (String × ℚ)) (origin : String) : Option ℚ :=
  (shippingRates.find? (fun p => p.1 == origin)).map Prod.snd

/-- `shippingRates[origin] || 150000`: an absent key gives `undefined` and a
stored zero rate is falsy, so both select the 150000 fallback. -/
def shippingCostOf (shippingRates : List (String × ℚ)) (origin : String) : ℚ :=
  match lookupRate shippingRates origin with
  | some r => if r = 0 then 150000 else r
  | none => 150000

/-- The straight-line body of `calculateCosts` once both band selectors have
resolved (source lines 114-151). -/
def mkBreakdown (value : ℚ) (selectedEngine : EngineOption) (selectedAge : AgeOption)
    (origin : String) (kraData : KRAData) (shippingRates : List (String × ℚ)) :
    CostBreakdown :=
  let adjustedValue := value * selectedEngine.multiplier * selectedAge.depreciationFactor
  let importDuty := adjustedValue * kraData.importDutyRate
  let exciseDuty := adjustedValue * kraData.exciseDutyRate
  let vat := (adjustedValue + importDuty + exciseDuty) * kraData.vatRate
  let shippingCost := shippingCostOf shippingRates origin
  let clearingFees : ℚ := 85000
  let inspectionFees : ℚ := 15000
  let documentationFees : ℚ := 25000
  let kraFees : ℚ := 5000
  let ntsa_fees : ℚ := 3000
  let portHandling : ℚ := 12000
  let ourServiceFee := adjustedValue * 0.03
  let totalCost := adjustedValue + importDuty + exciseDuty + vat + shippingCost +
                   clearingFees + inspectionFees + documentationFees + kraFees +
                   ntsa_fees + portHandling + ourServiceFee
  { originalValue := value
    adjustedValue := adjustedValue
    importDuty := importDuty
    exciseDuty := exciseDuty
    vat := vat
    shippingCost := shippingCost
    clearingFees := clearingFees
    inspectionFees := inspectionFees
    documentationFees := documentationFees
    kraFees := kraFees
    ntsa_fees := ntsa_fees
    portHandling := portHandling
    ourServiceFee := ourServiceFee
    totalCost := totalCost
    engineMultiplier := selectedEngine.multiplier
    depreciationFactor := selectedAge.depreciationFactor }

/-- `calculateCosts` (source lines 105-152). `carValue : Option ℚ` models the
text input after `parseFloat` (`none` = NaN); the first guard is the JS
truthiness test `!value || !engineSize || !age`; an unmatched band selector
makes `find` return `undefined` and the function return `null` (`none`). -/
def calculateCosts (carValue : Option ℚ) (engineSize age origin : String)
    (kraData : KRAData) (shippingRates : List (String × ℚ)) : Option CostBreakdown :=
  match carValue with
  | none => none
  | some value =>
    if value = 0 ∨ engineSize = "" ∨ age = "" then none else
    match engineSizeOptions.find? (fun e => e.value == engineSize) with
    | none => none
    | some selectedEngine =>
      match ageOptions.find? (fun a => a.value == age) with
      | none => none
      | some selectedAge =>
        some (mkBreakdown value selectedEngine selectedAge origin kraData shippingRates)

/-- The initial KRA rates of the source component state (also the values the
simulated refresh re-installs): 25% import duty, 25% excise duty, 16% VAT. -/
def defaultKRA : KRAData := ⟨0.25, 0.25, 0.16⟩

/-- The initial shipping-rate table of the source component state. -/
def defaultShipping : List (String × ℚ) :=
  [("japan", 150000), ("uk", 200000), ("uae", 180000)]

/-- The largest value multiplier across the engine bands. -/
def maxEngineMultiplier : ℚ :=
  (engineSizeOptions.map EngineOption.multiplier).foldl max 0

/-- Every engine band has a positive multiplier and a nonempty selector
string. -/
theorem engine_mem_facts {e : EngineOption} (he : e ∈ engineSizeOptions) :
    0 < e.multiplier ∧ e.value ≠ "" := by
  simp only [engineSizeOptions, List.mem_cons, List.not_mem_nil, or_false] at he
  rcases he with rfl | rfl | rfl | rfl | rfl | rfl | rfl <;>
    exact ⟨by norm_num, by decide⟩

/-- Every age band has a positive depreciation factor and a nonempty selector
string. -/
theorem age_mem_facts {a : AgeOption} (ha : a ∈ ageOptions) :
    0 < a.depreciationFactor ∧ a.value ≠ "" := by
  simp only [ageOptions, List.mem_cons, List.not_mem_nil, or_false] at ha
  rcases ha with rfl | rfl | rfl | rfl | rfl | rfl <;>
    exact ⟨by norm_num, by decide⟩

/-- When the declared value is a nonzero number and both band selectors
resolve, `calculateCosts` returns the breakdown built by `mkBreakdown`. -/
theorem calculateCosts_eq_mk {v : ℚ} {es ag og : String} {kra : KRAData}
    {rates : List (String × ℚ)} {e : EngineOption} {a : AgeOption}
    (hv : v ≠ 0)
    (he : engineSizeOptions.find? (fun o => o.value == es) = some e)
    (ha : ageOptions.find? (fun o => o.value == ag) = some a) :
    calculateCosts (some v) es ag og kra rates = some (mkBreakdown v e a og kra rates) := by
  have hpe : e.value = es := by
    have h := List.find?_some he
    simpa using h
  have hpa : a.value = ag := by
    have h := List.find?_some ha
    simpa using h
  have hes : es ≠ "" := hpe ▸ (engine_mem_facts (List.mem_of_find?_eq_some he)).2
  have hag : ag ≠ "" := hpa ▸ (age_mem_facts (List.mem_of_find?_eq_some ha)).2
  simp only [calculateCosts]
  rw [if_neg (by tauto), he, ha]

/-- Inversion: every breakdown `calculateCosts` produces comes from a nonzero
declared value and two resolved band selectors, and is `mkBreakdown` of
them. -/
theorem calculateCosts_some_inv {cv : Option ℚ} {es ag og : String} {kra : KRAData}
    {rates : List (String × ℚ)} {b : CostBreakdown}
    (hb : calculateCosts cv es ag og kra rates = some b) :
    ∃ v e a, cv = some v ∧ v ≠ 0 ∧
      engineSizeOptions.find? (fun o => o.value == es) = some e ∧
      ageOptions.find? (fun o => o.value == ag) = some a ∧
      b = mkBreakdown v e a og kra rates := by
  cases cv with
  | none => simp [calculateCosts] at hb
  | some v =>
    simp only [calculateCosts] at hb
    split at hb
    · exact absurd hb (by simp)
    · rename_i h0
      split at hb
      · exact absurd hb (by simp)
      · rename_i e hE
        split at hb
        · exact absurd hb (by simp)
        · rename_i a hA
          refine ⟨v, e, a, rfl, ?_, hE, hA, ?_⟩
          · intro h; exact h0 (Or.inl h)
          · exact (Option.some.injEq _ _ ▸ hb).symm

/-- The adjusted value inside any produced breakdown is nonzero: the declared
value is nonzero and both band factors are positive. -/
theorem adjustedValue_ne_zero {v : ℚ} {e : EngineOption} {a : AgeOption}
    (hv : v ≠ 0) (he : e ∈ engineSizeOptions) (ha : a ∈ ageOptions) :
    v * e.multiplier * a.depreciationFactor ≠ 0 :=
  mul_ne_zero (mul_ne_zero hv (ne_of_gt (engine_mem_facts he).1))
    (ne_of_gt (age_mem_facts ha).1)

/-- The breakdown of the worked example of spec section 8: declared value
2,500,000, engine band 1501-2000cc, age band 1-2 years, origin japan, default
rates. -/
def exampleBreakdown : CostBreakdown :=
  ⟨2500000, 2850000, 712500, 712500, 684000, 150000, 85000, 15000, 25000, 5000,
   3000, 12000, 85500, 5339500, 1.2, 0.95⟩

/-- Evaluation of the estimator on the worked example of spec section 8. -/
theorem calculateCosts_example :
    calculateCosts (some 2500000) "2000" "2" "japan" defaultKRA defaultShipping =
      some exampleBreakdown := by
  have hE : engineSizeOptions.find? (fun e => e.value == "2000") =
      some ⟨"2000", "1501-2000cc", 1.2⟩ := by rfl
  have hA : ageOptions.find? (fun a => a.value == "2") = some ⟨"2", "1-2 years", 0.95⟩ := by
    rfl
  rw [calculateCosts, if_neg (by decide), hE, hA]
  simp only [mkBreakdown, shippingCostOf, lookupRate, defaultKRA, defaultShipping,
    exampleBreakdown, Option.some.injEq, CostBreakdown.mk.injEq, List.find?]
  norm_num

/-- C1: in every computed breakdown the VAT equals
(adjustedValue + importDuty + exciseDuty) × vatRate — the VAT base includes
both duties — and when the duty, excise and VAT rates are nonzero this differs
from the naive adjustedValue × vatRate. -/
theorem vat_base_includes_duties {cv : Option ℚ} {es ag og : String} {kra : KRAData}
    {rates : List (String × ℚ)} {b : CostBreakdown}
    (hb : calculateCosts cv es ag og kra rates = some b)
    (hi : 0 < kra.importDutyRate) (hx : 0 < kra.exciseDutyRate)
    (hw : 0 < kra.vatRate) :
    b.vat = (b.adjustedValue + b.importDuty + b.exciseDuty) * kra.vatRate ∧
      b.vat ≠ b.adjustedValue * kra.vatRate := by
  obtain ⟨v, e, a, -, hv, hE, hA, rfl⟩ := calculateCosts_some_inv hb
  have hadj : v * e.multiplier * a.depreciationFactor ≠ 0 :=
    adjustedValue_ne_zero hv (List.mem_of_find?_eq_some hE) (List.mem_of_find?_eq_some hA)
  constructor
  · simp [mkBreakdown]
  · simp only [mkBreakdown]
    intro hEq
    have h2 : v * e.multiplier * a.depreciationFactor *
        (kra.importDutyRate + kra.exciseDutyRate) * kra.vatRate = 0 := by
      linear_combination hEq
    have hsum : kra.importDutyRate + kra.exciseDutyRate ≠ 0 := by positivity
    exact (mul_ne_zero (mul_ne_zero hadj hsum) (ne_of_gt hw)) h2

/-- C1 witness: the cascading VAT property instantiated on the worked example
with the default rates. -/
theorem vat_base_includes_duties_witness :
    exampleBreakdown.vat = (exampleBreakdown.adjustedValue + exampleBreakdown.importDuty +
        exampleBreakdown.exciseDuty) * defaultKRA.vatRate ∧
      exampleBreakdown.vat ≠ exampleBreakdown.adjustedValue * defaultKRA.vatRate :=
  vat_base_includes_duties calculateCosts_example (by norm_num [defaultKRA])
    (by norm_num [defaultKRA]) (by norm_num [defaultKRA])

/-- C2: in every computed breakdown the total cost is the exact sum of
adjustedValue, importDuty, exciseDuty, vat, shippingCost, the six fixed fees
(clearing, inspection, documentation, KRA processing, NTSA registration, port
handling) and the service fee. -/
theorem total_is_sum_of_components {cv : Option ℚ} {es ag og : String} {kra : KRAData}
    {rates : List (String × ℚ)} {b : CostBreakdown}
    (hb : calculateCosts cv es ag og kra rates = some b) :
    b.totalCost = b.adjustedValue + b.importDuty + b.exciseDuty + b.vat + b.shippingCost +
      b.clearingFees + b.inspectionFees + b.documentationFees + b.kraFees + b.ntsa_fees +
      b.portHandling + b.ourServiceFee := by
  obtain ⟨v, e, a, -, -, -, -, rfl⟩ := calculateCosts_some_inv hb
  simp [mkBreakdown]

/-- C2 witness: the total-is-sum property instantiated on the worked
example. -/
theorem total_is_sum_of_components_witness :
    exampleBreakdown.totalCost = exampleBreakdown.adjustedValue + exampleBreakdown.importDuty +
      exampleBreakdown.exciseDuty + exampleBreakdown.vat + exampleBreakdown.shippingCost +
      exampleBreakdown.clearingFees + exampleBreakdown.inspectionFees +
      exampleBreakdown.documentationFees + exampleBreakdown.kraFees +
      exampleBreakdown.ntsa_fees + exampleBreakdown.portHandling +
      exampleBreakdown.ourServiceFee :=
  total_is_sum_of_components calculateCosts_example

/-- C3 counterexample: a negative declared value is ≤ 0, yet the estimator
still produces a breakdown (the JS guard `!value` only rejects 0 and NaN). -/
theorem negative_value_still_computes :
    (-1000000 : ℚ) ≤ 0 ∧
      calculateCosts (some (-1000000)) "2000" "2" "japan" defaultKRA defaultShipping ≠
        none := by
  constructor
  · norm_num
  · have hE : engineSizeOptions.find? (fun o => o.value == "2000") =
        some ⟨"2000", "1501-2000cc", 1.2⟩ := by rfl
    have hA : ageOptions.find? (fun o => o.value == "2") =
        some ⟨"2", "1-2 years", 0.95⟩ := by rfl
    rw [calculateCosts_eq_mk (show (-1000000 : ℚ) ≠ 0 by norm_num) hE hA]
    simp

/-- C3 amended: a missing or non-numeric declared value (parseFloat NaN) or a
declared value equal to 0 yields NotReady; negative values are not rejected. -/
theorem missing_or_zero_value_not_ready (cv : Option ℚ) (es ag og : String)
    (kra : KRAData) (rates : List (String × ℚ))
    (h : cv = none ∨ cv = some 0) :
    calculateCosts cv es ag og kra rates = none := by
  rcases h with rfl | rfl
  · rfl
  · simp [calculateCosts]

/-- C3 witness: a declared value of 0 yields NotReady on otherwise complete
inputs. -/
theorem missing_or_zero_value_not_ready_witness :
    calculateCosts (some 0) "2000" "2" "japan" defaultKRA defaultShipping = none :=
  missing_or_zero_value_not_ready (some 0) "2000" "2" "japan" defaultKRA defaultShipping
    (Or.inr rfl)

/-- C4: when the engine-band selector or the age-band selector resolves to no
known band (which covers the absent selector "", matched by no band), the
estimator returns NotReady. -/
theorem unknown_band_not_ready (cv : Option ℚ) (es ag og : String) (kra : KRAData)
    (rates : List (String × ℚ))
    (h : engineSizeOptions.find? (fun o => o.value == es) = none ∨
         ageOptions.find? (fun o => o.value == ag) = none) :
    calculateCosts cv es ag og kra rates = none := by
  by_contra hne
  obtain ⟨b, hb⟩ := Option.ne_none_iff_exists'.mp hne
  obtain ⟨v, e, a, -, -, hE, hA, -⟩ := calculateCosts_some_inv hb
  rcases h with h | h
  · rw [h] at hE; exact absurd hE (by simp)
  · rw [h] at hA; exact absurd hA (by simp)

/-- C4 witness: an engine selector matching no band yields NotReady. -/
theorem unknown_band_not_ready_witness :
    calculateCosts (some 2500000) "9999" "2" "japan" defaultKRA defaultShipping = none :=
  unknown_band_not_ready (some 2500000) "9999" "2" "japan" defaultKRA defaultShipping
    (Or.inl rfl)

/-- C5: an otherwise-valid declaration (positive value, both bands resolved)
whose origin is not in the shipping-rate table still gets a full breakdown,
with the 150,000 fallback shipping cost. -/
theorem unknown_origin_uses_fallback {v : ℚ} {es ag og : String} {kra : KRAData}
    {rates : List (String × ℚ)} {e : EngineOption} {a : AgeOption}
    (hv : 0 < v)
    (he : engineSizeOptions.find? (fun o => o.value == es) = some e)
    (ha : ageOptions.find? (fun o => o.value == ag) = some a)
    (ho : rates.find? (fun p => p.1 == og) = none) :
    ∃ b, calculateCosts (some v) es ag og kra rates = some b ∧
      b.shippingCost = 150000 := by
  refine ⟨_, calculateCosts_eq_mk (ne_of_gt hv) he ha, ?_⟩
  simp [mkBreakdown, shippingCostOf, lookupRate, ho]

/-- C5 witness: origin "germany" is absent from the default table, and the
breakdown carries the 150,000 fallback. -/
theorem unknown_origin_uses_fallback_witness :
    ∃ b, calculateCosts (some 1) "1000" "1" "germany" defaultKRA defaultShipping =
      some b ∧ b.shippingCost = 150000 :=
  unknown_origin_uses_fallback (by norm_num) rfl rfl rfl

/-- C6: the worked example of spec section 8 — declared value 2,500,000,
engine band 1501-2000cc (selector "2000", multiplier 1.2), age band 1-2 years
(selector "2", factor 0.95), origin japan at rate 150,000, default KRA rates —
yields adjustedValue 2,850,000, importDuty 712,500, exciseDuty 712,500,
vat 684,000, serviceFee 85,500 and total 5,339,500. -/
theorem example_scenario_exact :
    calculateCosts (some 2500000) "2000" "2" "japan" defaultKRA defaultShipping =
      some ⟨2500000, 2850000, 712500, 712500, 684000, 150000, 85000, 15000, 25000, 5000,
        3000, 12000, 85500, 5339500, 1.2, 0.95⟩ :=
  calculateCosts_example

/-- C7: for every positive declared value and resolved band selectors, the
breakdown's adjusted value is exactly v × engineMultiplier ×
depreciationFactor. -/
theorem adjusted_value_formula {v : ℚ} {es ag og : String} {kra : KRAData}
    {rates : List (String × ℚ)} {e : EngineOption} {a : AgeOption}
    (hv : 0 < v)
    (he : engineSizeOptions.find? (fun o => o.value == es) = some e)
    (ha : ageOptions.find? (fun o => o.value == ag) = some a) :
    ∃ b, calculateCosts (some v) es ag og kra rates = some b ∧
      b.adjustedValue = v * e.multiplier * a.depreciationFactor := by
  refine ⟨_, calculateCosts_eq_mk (ne_of_gt hv) he ha, ?_⟩
  simp [mkBreakdown]

/-- C7 witness: on the worked example the adjusted value is
2,500,000 × 1.2 × 0.95. -/
theorem adjusted_value_formula_witness :
    ∃ b, calculateCosts (some 2500000) "2000" "2" "japan" defaultKRA defaultShipping =
      some b ∧ b.adjustedValue = 2500000 * (1.2 : ℚ) * 0.95 :=
  adjusted_value_formula (show (0 : ℚ) < 2500000 by norm_num)
    (show engineSizeOptions.find? (fun o => o.value == "2000") =
      some ⟨"2000", "1501-2000cc", 1.2⟩ from rfl)
    (show ageOptions.find? (fun o => o.value == "2") =
      some ⟨"2", "1-2 years", 0.95⟩ from rfl)

/-- C8 counterexample: the 1001-1500cc band (multiplier 1.1, not exceeding the
maximum band multiplier) with the under-1-year band (factor 1 ≤ 1) yields an
adjusted value strictly above the declared value. -/
theorem adjusted_value_can_exceed_declared :
    (1 : ℚ) ≤ 1 ∧ (1.1 : ℚ) ≤ maxEngineMultiplier ∧
      ∃ b, calculateCosts (some 1000000) "1500" "1" "japan" defaultKRA defaultShipping =
        some b ∧ 1000000 < b.adjustedValue := by
  refine ⟨le_refl 1, ?_, ?_⟩
  · norm_num [maxEngineMultiplier, engineSizeOptions]
  · refine ⟨_, calculateCosts_eq_mk (show (1000000 : ℚ) ≠ 0 by norm_num)
      (show engineSizeOptions.find? (fun o => o.value == "1500") =
        some ⟨"1500", "1001-1500cc", 1.1⟩ from rfl)
      (show ageOptions.find? (fun o => o.value == "1") =
        some ⟨"1", "Less than 1 year", 1.0⟩ from rfl), ?_⟩
    norm_num [mkBreakdown]

/-- C8 amended: the adjusted value is at most the declared value exactly when
the product engineMultiplier × depreciationFactor of the resolved bands is at
most 1 (depreciationFactor ≤ 1 by itself does not suffice, since every
multiplier is allowed up to the maximum band multiplier 1.6). -/
theorem adjusted_le_declared_of_product_le_one {v : ℚ} {es ag og : String}
    {kra : KRAData} {rates : List (String × ℚ)} {e : EngineOption} {a : AgeOption}
    (hv : 0 < v)
    (he : engineSizeOptions.find? (fun o => o.value == es) = some e)
    (ha : ageOptions.find? (fun o => o.value == ag) = some a)
    (hprod : e.multiplier * a.depreciationFactor ≤ 1) :
    ∃ b, calculateCosts (some v) es ag og kra rates = some b ∧ b.adjustedValue ≤ v := by
  refine ⟨_, calculateCosts_eq_mk (ne_of_gt hv) he ha, ?_⟩
  simp only [mkBreakdown]
  calc v * e.multiplier * a.depreciationFactor
      = v * (e.multiplier * a.depreciationFactor) := by ring
    _ ≤ v * 1 := mul_le_mul_of_nonneg_left hprod (le_of_lt hv)
    _ = v := mul_one v

/-- C8 amended witness: the below-1000cc band (multiplier 1) with the 1-2
years band (factor 0.95) has product 0.95 ≤ 1 and the adjusted value stays
below the declared value. -/
theorem adjusted_le_declared_witness :
    ∃ b, calculateCosts (some 1000000) "1000" "2" "japan" defaultKRA defaultShipping =
      some b ∧ b.adjustedValue ≤ 1000000 :=
  adjusted_le_declared_of_product_le_one (by norm_num) rfl rfl (by norm_num)

/-- C9: across the ordered engine bands the multipliers are monotonically
non-decreasing, and across the ordered age bands the depreciation factors are
monotonically non-increasing and each lies in (0, 1]. -/
theorem band_tables_monotone :
    List.Chain' (fun x y => x ≤ y) (engineSizeOptions.map EngineOption.multiplier) ∧
      List.Chain' (fun x y => y ≤ x) (ageOptions.map AgeOption.depreciationFactor) ∧
      ((ageOptions.map AgeOption.depreciationFactor).all
        (fun d => decide (0 < d) && decide (d ≤ 1))) = true := by
  refine ⟨?_, ?_, ?_⟩ <;>
    norm_num [engineSizeOptions, ageOptions, List.chain'_cons, List.all]

/-- C10: when the origin is present in the shipping table but its stored rate
is zero (a falsy JS number), every computed breakdown carries the 150,000
fallback instead of the stored value. -/
theorem zero_rate_origin_uses_fallback {cv : Option ℚ} {es ag og : String}
    {kra : KRAData} {rates : List (String × ℚ)} {b : CostBreakdown}
    (hb : calculateCosts cv es ag og kra rates = some b)
    (ho : lookupRate rates og = some 0) :
    b.shippingCost = 150000 := by
  obtain ⟨v, e, a, -, -, -, -, rfl⟩ := calculateCosts_some_inv hb
  simp [mkBreakdown, shippingCostOf, ho]

/-- C10 witness: a table storing rate 0 for japan still produces shipping cost
150,000. -/
theorem zero_rate_origin_uses_fallback_witness :
    (mkBreakdown 1 ⟨"1000", "Below 1000cc", 1.0⟩ ⟨"1", "Less than 1 year", 1.0⟩ "japan"
        defaultKRA [("japan", 0)]).shippingCost = 150000 :=
  zero_rate_origin_uses_fallback
    (calculateCosts_eq_mk (show (1 : ℚ) ≠ 0 by norm_num)
      (show engineSizeOptions.find? (fun o => o.value == "1000") =
        some ⟨"1000", "Below 1000cc", 1.0⟩ from rfl)
      (show ageOptions.find? (fun o => o.value == "1") =
        some ⟨"1", "Less than 1 year", 1.0⟩ from rfl))
    (show lookupRate [("japan", 0)] "japan" = some 0 from rfl)
